import Mathlib

/-!
Shallow embedding of the Bybit funding-rate arbitrage system
(`arbitrage_engine.py`, `trading_rules.py`): capital allocation, entry
(`one_click_arbitrage`), exit (`close_position`), risk scoring, funding
income estimation, minimum-investment computation and the trading-rules
cache.  Machine floats are modelled as exact rationals; Python's `round`
(banker's rounding) and `int` truncation are embedded explicitly.
-/

namespace BybitArb

/-- Python `round(x)`: round half to even, returning an integer. -/
def roundHalfEven (x : ℚ) : ℤ :=
  let n := ⌊x⌋
  let frac := x - n
  if frac < 1/2 then n
  else if 1/2 < frac then n + 1
  else if n % 2 = 0 then n else n + 1

/-- Python `round(x, p)`: round to `p` decimal places, half to even. -/
def roundTo (x : ℚ) (p : ℕ) : ℚ :=
  (roundHalfEven (x * 10 ^ p) : ℚ) / 10 ^ p

/-- Python `int(x)` on a real value: truncation toward zero. -/
def intTrunc (x : ℚ) : ℤ :=
  if 0 ≤ x then ⌊x⌋ else -⌊-x⌋

/-- Python `a % b` for `b > 0`: `a - b * floor (a / b)`. -/
def pymod (a b : ℚ) : ℚ := a - b * ⌊a / b⌋

/-- Spot taker/maker fee rate 0.1% (`SPOT_FEE_RATE = 0.001`). -/
def SPOT_FEE_RATE : ℚ := 1/1000

/-- Derivatives taker fee rate 0.055% (`FUTURES_FEE_RATE = 0.00055`). -/
def FUTURES_FEE_RATE : ℚ := 55/100000

/-- Per-market trading rules as returned by `_get_spot_rules` /
`_get_linear_rules` (`max_leverage` is only meaningful for linear). -/
structure MarketRules where
  min_order_qty : ℚ
  max_order_qty : ℚ
  qty_step : ℚ
  min_order_amt : ℚ
  max_order_amt : ℚ
  price_precision : ℕ
  qty_precision : ℕ
  max_leverage : ℚ
deriving DecidableEq

/-- The pair of per-market rule sets for one symbol. -/
structure SymbolRules where
  spot : MarketRules
  linear : MarketRules
deriving DecidableEq

/-- `_get_default_rules` in `trading_rules.py`. -/
def default_rules : MarketRules :=
  { min_order_qty := 1/1000
    max_order_qty := 1000
    qty_step := 1/1000
    min_order_amt := 5
    max_order_amt := 100000
    price_precision := 2
    qty_precision := 3
    max_leverage := 5 }

/-- Substring test on character lists (Python `needle in haystack`). -/
def hasInfix (needle : List Char) : List Char → Bool
  | [] => needle.isEmpty
  | c :: cs => needle.isPrefixOf (c :: cs) || hasInfix needle cs

/-- `_get_demo_min_qty` in `trading_rules.py`: hardcoded Demo-API
minimum quantities with default 5. -/
def demo_min_qty (symbol : String) : ℚ :=
  if symbol = "BTCUSDT" then 5
  else if symbol = "ETHUSDT" then 5
  else if symbol = "SOLUSDT" then 5
  else if symbol = "ADAUSDT" then 10
  else if symbol = "DOTUSDT" then 5
  else if symbol = "LINKUSDT" then 5
  else if symbol = "UNIUSDT" then 5
  else if symbol = "LTCUSDT" then 5
  else if symbol = "BCHUSDT" then 5
  else if symbol = "XRPUSDT" then 10
  else if symbol = "AVAXUSDT" then 5
  else if symbol = "ATOMUSDT" then 5
  else if symbol = "NEARUSDT" then 10
  else 5

/-- Price estimate used by the demo branch of
`get_min_investment_amount`: 4500 if `'ETH' in symbol`, 50000 if
`'BTC' in symbol`, else 100. -/
def estimated_price (symbol : String) : ℚ :=
  if hasInfix "ETH".data symbol.data then 4500
  else if hasInfix "BTC".data symbol.data then 50000
  else 100

/-- `get_min_investment_amount` in `trading_rules.py`, with the client's
demo flag and the resolved per-symbol rules passed explicitly. -/
def get_min_investment_amount (demo : Bool) (symbol : String)
    (rules : SymbolRules) (leverage : ℤ) : ℚ :=
  if demo then
    let dq := demo_min_qty symbol
    let ep := estimated_price symbol
    let demo_min_amount := dq * ep
    let spotShare : ℚ := (leverage : ℚ) / ((leverage : ℚ) + 1)
    roundTo (demo_min_amount / spotShare * (12/10)) 2
  else
    let spot_min := rules.spot.min_order_amt
    let linear_min := rules.linear.min_order_amt / (leverage : ℚ)
    roundTo (max spot_min linear_min * (12/10)) 2

/-- `validate_order_params` in `trading_rules.py`, applied to one
market's rules: quantity bounds, step-multiple check with 1e-10
tolerance, then notional bounds.  Returns `(ok, message)`. -/
def validate_order_params (rule : MarketRules) (qty price : ℚ) :
    Bool × String :=
  if qty < rule.min_order_qty then (false, "qty below min_order_qty")
  else if qty > rule.max_order_qty then (false, "qty above max_order_qty")
  else if rule.qty_step > 0 ∧
      (let remainder := pymod qty rule.qty_step
       |remainder| > 1/10^10 ∧ |remainder - rule.qty_step| > 1/10^10) then
    (false, "qty not a multiple of qty_step")
  else if qty * price < rule.min_order_amt then
    (false, "amount below min_order_amt")
  else if qty * price > rule.max_order_amt then
    (false, "amount above max_order_amt")
  else (true, "params valid")

/-- `_calculate_risk_score` in `arbitrage_engine.py`. -/
def calculate_risk_score (price_diff_percent funding_rate : ℚ) : ℚ :=
  let price_risk := min (|price_diff_percent| / 2) 1
  let funding_risk := max 0 (-funding_rate * 100)
  let risk_score := price_risk * (7/10) + funding_risk * (3/10)
  min risk_score 1

/-- `calculate_capital_allocation` in `arbitrage_engine.py`:
`spot_amount = total/2`, `futures_amount = spot_amount/leverage`. -/
def calculate_capital_allocation (total_amount : ℚ) (leverage : ℤ) :
    ℚ × ℚ :=
  let spot_amount := total_amount / 2
  let futures_amount := spot_amount / (leverage : ℚ)
  (spot_amount, futures_amount)

/-- `Position` dataclass in `arbitrage_engine.py`. -/
structure Position where
  symbol : String
  spot_qty : ℚ
  futures_qty : ℚ
  spot_avg_price : ℚ
  futures_avg_price : ℚ
  unrealized_pnl : ℚ
  funding_paid : ℚ
  entry_time : ℚ
  leverage : ℤ
  total_investment : ℚ
  spot_investment : ℚ
  futures_investment : ℚ
deriving DecidableEq

/-- `TradingResult` dataclass in `arbitrage_engine.py`. -/
structure TradingResult where
  success : Bool
  message : String
  spot_order_id : Option String := none
  futures_order_id : Option String := none
  spot_qty : ℚ := 0
  futures_qty : ℚ := 0
  spot_price : ℚ := 0
  futures_price : ℚ := 0
  total_cost : ℚ := 0
deriving DecidableEq

/-- `ClosedPosition` dataclass in `arbitrage_engine.py`. -/
structure ClosedPosition where
  symbol : String
  spot_qty : ℚ
  futures_qty : ℚ
  spot_avg_price : ℚ
  futures_avg_price : ℚ
  close_spot_qty : ℚ
  close_futures_qty : ℚ
  close_spot_price : ℚ
  close_futures_price : ℚ
  total_pnl : ℚ
  entry_time : ℚ
  close_time : ℚ
  leverage : ℤ
  total_investment : ℚ
  spot_investment : ℚ
  futures_investment : ℚ
  funding_paid : ℚ
deriving DecidableEq

/-- The engine's mutable ledger: `self.positions` and
`self.closed_positions`. -/
structure EngineState where
  positions : String → Option Position
  closed_positions : List ClosedPosition

/-- Responses the external world gives during `one_click_arbitrage`:
the resolved trading rules (with the client demo flag), the two ticker
reads (`none` models an unavailable price), the `retCode`s and order ids
of the two `place_order` calls, and the wall clock. -/
structure EntryEnv where
  demo : Bool
  rules : SymbolRules
  spot_price : Option ℚ
  futures_price : Option ℚ
  spot_order_code : ℤ
  spot_order_id : Option String
  futures_order_code : ℤ
  futures_order_id : Option String
  now : ℚ

/-- `one_click_arbitrage` in `arbitrage_engine.py`: leverage and
minimum-investment checks, capital allocation, price fetch (Python
falsiness makes a 0 price unavailable), per-leg quantity computation and
step/precision quantization, positivity check, per-leg order validation,
then the spot buy and futures sell orders; a `Position` is stored only
when every step succeeded. -/
def one_click_arbitrage (env : EntryEnv) (st : EngineState)
    (symbol : String) (total_amount : ℚ) (leverage : ℤ) :
    EngineState × TradingResult :=
  let max_leverage := env.rules.linear.max_leverage
  if leverage < 1 ∨ (leverage : ℚ) > max_leverage then
    (st, { success := false, message := "leverage out of range" })
  else
    let min_investment := get_min_investment_amount env.demo symbol env.rules 1
    if total_amount < min_investment then
      (st, { success := false, message := "amount below minimum" })
    else
      let alloc := calculate_capital_allocation total_amount leverage
      let spot_amount := alloc.1
      let futures_amount := alloc.2
      let ps := env.spot_price.getD 0
      let pf := env.futures_price.getD 0
      if ps = 0 ∨ pf = 0 then
        (st, { success := false, message := "price unavailable" })
      else
        let spot_qty0 := spot_amount / ps
        let futures_qty0 := futures_amount / pf
        let spot_step := env.rules.spot.qty_step
        let futures_step := env.rules.linear.qty_step
        let spot_qty1 := (roundHalfEven (spot_qty0 / spot_step) : ℚ) * spot_step
        let futures_qty1 := (roundHalfEven (futures_qty0 / futures_step) : ℚ) * futures_step
        let spot_qty := roundTo spot_qty1 env.rules.spot.qty_precision
        let futures_qty := roundTo futures_qty1 env.rules.linear.qty_precision
        if spot_qty ≤ 0 ∨ futures_qty ≤ 0 then
          (st, { success := false, message := "computed qty invalid" })
        else if (validate_order_params env.rules.spot spot_qty ps).1 = false then
          (st, { success := false, message := "spot order params invalid" })
        else if (validate_order_params env.rules.linear futures_qty pf).1 = false then
          (st, { success := false, message := "futures order params invalid" })
        else if env.spot_order_code ≠ 0 then
          (st, { success := false, message := "spot buy failed" })
        else if env.futures_order_code ≠ 0 then
          -- the engine attempts to cancel the spot order here; that is an
          -- external call and does not touch the local ledger
          (st, { success := false, message := "futures sell failed" })
        else
          let position : Position :=
            { symbol := symbol
              spot_qty := spot_qty
              futures_qty := futures_qty
              spot_avg_price := ps
              futures_avg_price := pf
              unrealized_pnl := 0
              funding_paid := 0
              entry_time := env.now
              leverage := leverage
              total_investment := total_amount
              spot_investment := spot_amount
              futures_investment := futures_amount }
          ({ st with positions :=
                fun s => if s = symbol then some position else st.positions s },
           { success := true
             message := "one-click arbitrage succeeded"
             spot_order_id := env.spot_order_id
             futures_order_id := env.futures_order_id
             spot_qty := spot_qty
             futures_qty := futures_qty
             spot_price := ps
             futures_price := pf
             total_cost := total_amount })

/-- `calculate_funding_income` in `arbitrage_engine.py`: a `None` or 0
funding rate (Python `if not funding_rate`) yields 0; otherwise
`int(holding_hours/8)` settlement periods, 0 income when no period has
elapsed, else `|futures_qty| * futures_avg_price * rate * periods`. -/
def calculate_funding_income (funding_rate : Option ℚ) (now : ℚ)
    (position : Position) : ℚ :=
  match funding_rate with
  | none => 0
  | some fr =>
    if fr = 0 then 0
    else
      let holding_hours := (now - position.entry_time) / 3600
      let funding_periods := intTrunc (holding_hours / 8)
      if funding_periods ≤ 0 then 0
      else
        let futures_value := |position.futures_qty| * position.futures_avg_price
        futures_value * fr * (funding_periods : ℚ)

/-- Responses the external world gives during `close_position`: the
position map produced by the initial `get_positions_summary`
reconciliation, the two ticker reads, the per-symbol rules behind
`get_trading_tips`, the `retCode`s of the spot sell and futures buy
orders, the funding rate used by `calculate_funding_income`, and the
wall clock. -/
structure CloseEnv where
  reconciled : String → Option Position
  rules : SymbolRules
  spot_price : Option ℚ
  futures_price : Option ℚ
  spot_order_code : ℤ
  futures_order_code : ℤ
  funding_rate : Option ℚ
  now : ℚ

/-- `close_position` in `arbitrage_engine.py`: refresh the ledger from
the exchange, look up the position, fetch prices, sell
`min(spot_qty, |futures_qty|)` spot and buy back `|futures_qty|`
futures; on success compute the fee-inclusive P&L plus funding income,
zero the futures quantity, decrement the spot quantity, append a
`ClosedPosition`, and drop the symbol from the live map whenever the
futures leg is fully closed. -/
def close_position (env : CloseEnv) (st : EngineState) (symbol : String) :
    EngineState × TradingResult :=
  let st1 : EngineState := { st with positions := env.reconciled }
  match env.reconciled symbol with
  | none => (st1, { success := false, message := "no position found" })
  | some position =>
    let ps := env.spot_price.getD 0
    let pf := env.futures_price.getD 0
    if ps = 0 ∨ pf = 0 then
      (st1, { success := false, message := "price unavailable" })
    else
      let futures_qty := |position.futures_qty|
      let close_spot_qty := min position.spot_qty futures_qty
      if env.spot_order_code ≠ 0 then
        (st1, { success := false, message := "spot sell failed" })
      else
        let close_futures_qty := |position.futures_qty|
        if env.futures_order_code ≠ 0 then
          (st1, { success := false, message := "futures buy failed" })
        else
          let spot_gross_pnl := (ps - position.spot_avg_price) * close_spot_qty
          let spot_buy_amount := position.spot_avg_price * close_spot_qty
          let spot_sell_amount := ps * close_spot_qty
          let spot_fees := (spot_buy_amount + spot_sell_amount) * SPOT_FEE_RATE
          let spot_pnl := spot_gross_pnl - spot_fees
          let futures_gross_pnl :=
            (position.futures_avg_price - pf) * |position.futures_qty|
          let futures_short_amount :=
            position.futures_avg_price * |position.futures_qty|
          let futures_buy_amount := pf * |position.futures_qty|
          let futures_fees :=
            (futures_short_amount + futures_buy_amount) * FUTURES_FEE_RATE
          let futures_pnl := futures_gross_pnl - futures_fees
          let funding_income :=
            calculate_funding_income env.funding_rate env.now position
          let total_pnl := spot_pnl + futures_pnl + funding_income
          -- in-place mutation of the position record
          let position2 : Position :=
            { position with
                spot_qty := position.spot_qty - close_spot_qty
                futures_qty := 0 }
          let closed_position : ClosedPosition :=
            { symbol := symbol
              spot_qty := position2.spot_qty + close_spot_qty
              futures_qty := position2.futures_qty
              spot_avg_price := position.spot_avg_price
              futures_avg_price := position.futures_avg_price
              close_spot_qty := close_spot_qty
              close_futures_qty := close_futures_qty
              close_spot_price := ps
              close_futures_price := pf
              total_pnl := total_pnl
              entry_time := position.entry_time
              close_time := env.now
              leverage := position.leverage
              total_investment := position.total_investment
              spot_investment := position.spot_investment
              futures_investment := position.futures_investment
              funding_paid := position.funding_paid }
          let closed' := st1.closed_positions ++ [closed_position]
          let posmap : String → Option Position :=
            fun s => if s = symbol then some position2 else env.reconciled s
          let deleted : String → Option Position :=
            fun s => if s = symbol then none else posmap s
          if position2.futures_qty = 0 ∧ position2.spot_qty < 1/1000 then
            ({ positions := deleted, closed_positions := closed' },
             { success := true, message := "position fully closed"
               spot_qty := close_spot_qty, futures_qty := close_futures_qty
               spot_price := ps, futures_price := pf, total_cost := 0 })
          else if position2.futures_qty = 0 then
            ({ positions := deleted, closed_positions := closed' },
             { success := true, message := "position closed, spot residual removed"
               spot_qty := close_spot_qty, futures_qty := close_futures_qty
               spot_price := ps, futures_price := pf, total_cost := 0 })
          else
            ({ positions := posmap, closed_positions := closed' },
             { success := true, message := "position closed, spot remains"
               spot_qty := close_spot_qty, futures_qty := close_futures_qty
               spot_price := ps, futures_price := pf, total_cost := 0 })

/-- `RuleSet` returned by `get_trading_rules`: merged spot/linear rules
plus the `last_updated` fetch timestamp. -/
structure RuleSet where
  symbol : String
  spot : MarketRules
  linear : MarketRules
  last_updated : ℚ
deriving DecidableEq

/-- The `TradingRulesManager` cache: `self.rules_cache` keyed by symbol
and the single shared `self.cache_time`. -/
structure RulesCacheState where
  rules_cache : String → Option RuleSet
  cache_time : ℚ

/-- Fresh manager state (`__init__`: empty cache, `cache_time = 0`). -/
def rulesCacheInit : RulesCacheState :=
  { rules_cache := fun _ => none, cache_time := 0 }

/-- `_is_cache_valid` in `trading_rules.py`:
`time.time() - self.cache_time < self.cache_duration` (3600 s). -/
def is_cache_valid (now : ℚ) (st : RulesCacheState) : Bool :=
  decide (now - st.cache_time < 3600)

/-- `get_trading_rules` in `trading_rules.py`: serve `rules_cache[symbol]`
when not forced, the global timer is fresh and the entry exists;
otherwise fetch both markets (`fetched` models the two metadata
queries), store the merged rules under the symbol and reset the shared
`cache_time` to now. -/
def get_trading_rules (fetched : SymbolRules) (now : ℚ)
    (st : RulesCacheState) (symbol : String) (force_refresh : Bool) :
    RuleSet × RulesCacheState :=
  match (if force_refresh = false ∧ is_cache_valid now st = true then
           st.rules_cache symbol
         else none) with
  | some cached => (cached, st)
  | none =>
    let rules : RuleSet :=
      { symbol := symbol, spot := fetched.spot, linear := fetched.linear
        last_updated := now }
    (rules,
     { rules_cache := fun s => if s = symbol then some rules else st.rules_cache s
       cache_time := now })

/-! Concrete inputs used by the claim theorems and witnesses. -/

/-- Default rules on both markets. -/
def hedgeRules : SymbolRules := { spot := default_rules, linear := default_rules }

/-- A fresh engine ledger. -/
def engineInit : EngineState := { positions := fun _ => none, closed_positions := [] }

/-- Entry environment: both prices 100, both orders accepted. -/
def entryEnvA : EntryEnv :=
  { demo := false, rules := hedgeRules
    spot_price := some 100, futures_price := some 100
    spot_order_code := 0, spot_order_id := some "so-1"
    futures_order_code := 0, futures_order_id := some "fo-1", now := 0 }

/-- A hedged position: 5 spot units against a short of 5 futures units,
both legs entered at price 100. -/
def posHedged : Position :=
  { symbol := "ETHUSDT", spot_qty := 5, futures_qty := -5
    spot_avg_price := 100, futures_avg_price := 100
    unrealized_pnl := 0, funding_paid := 0, entry_time := 0
    leverage := 2, total_investment := 1000
    spot_investment := 500, futures_investment := 250 }

/-- Close environment: prices unchanged from entry, both orders
accepted, funding rate unavailable, closed immediately. -/
def closeEnvA : CloseEnv :=
  { reconciled := fun s => if s = "ETHUSDT" then some posHedged else none
    rules := hedgeRules, spot_price := some 100, futures_price := some 100
    spot_order_code := 0, futures_order_code := 0
    funding_rate := none, now := 0 }

/-- Position with a spot residual of 0.0005 beyond the futures leg. -/
def posResidual : Position := { posHedged with symbol := "SOLUSDT", spot_qty := 5 + 1/2000 }

/-- Close environment for the residual position. -/
def closeEnvResidual : CloseEnv :=
  { closeEnvA with reconciled := fun s => if s = "SOLUSDT" then some posResidual else none }

/-- Close environment in which the spot sell order is rejected. -/
def closeEnvSpotFail : CloseEnv := { closeEnvA with spot_order_code := 1 }

/-- Rules fetched for symbol AUSDT in the cache trace. -/
def rulesFetchA : SymbolRules := hedgeRules

/-- Distinguishable rules fetched for symbol BUSDT in the cache trace. -/
def rulesFetchB : SymbolRules :=
  { hedgeRules with spot := { default_rules with min_order_qty := 7 } }

/-- Cache state after fetching AUSDT at time 100. -/
def cacheS1 : RulesCacheState :=
  (get_trading_rules rulesFetchA 100 rulesCacheInit "AUSDT" false).2

/-- Cache state after additionally fetching BUSDT at time 3600. -/
def cacheS2 : RulesCacheState :=
  (get_trading_rules rulesFetchB 3600 cacheS1 "BUSDT" false).2

/-- Placeholder rule set for `Option.getD`. -/
def emptyRuleSet : RuleSet :=
  { symbol := "", spot := default_rules, linear := default_rules, last_updated := 0 }

/-- Modelled from the claim's words (C3): a total notional `T` clears
both legs' minimum-order-amount constraints when, under the engine's
`T/2` split, the spot leg's notional `T/2` reaches the spot minimum and
the futures leg's order notional `T/2/L` reaches the linear minimum. -/
def spec_clears_min_order_amounts (spotMin linearMin : ℚ) (L : ℤ) (T : ℚ) : Prop :=
  spotMin ≤ T / 2 ∧ linearMin ≤ T / 2 / (L : ℚ)

/-! Claim theorems. -/

/-- C1: a successful `one_click_arbitrage` entry with total 1000 and
leverage 2 at equal prices 100/100 stores a position whose legs hold 5
spot units against only 2.5 futures units: the raw per-leg quantities
`allocated/price` are 5 and 5/2 before any quantization (the steps are
exact here), so the legs do not hold matching unit quantities as the
code's own comments and log output assert. -/
theorem C1_entry_legs_hold_unequal_unit_quantities :
    (one_click_arbitrage entryEnvA engineInit "BTCUSDT" 1000 2).2.success = true ∧
    ((one_click_arbitrage entryEnvA engineInit "BTCUSDT" 1000 2).1.positions
        "BTCUSDT").map Position.spot_qty = some 5 ∧
    ((one_click_arbitrage entryEnvA engineInit "BTCUSDT" 1000 2).1.positions
        "BTCUSDT").map Position.futures_qty = some (5/2) ∧
    (calculate_capital_allocation 1000 2).1 / 100 = 5 ∧
    (calculate_capital_allocation 1000 2).2 / 100 = 5/2 ∧
    (5 : ℚ) ≠ 5/2 := by
  norm_num [one_click_arbitrage, entryEnvA, engineInit, hedgeRules, default_rules,
    get_min_investment_amount, calculate_capital_allocation, validate_order_params,
    pymod, roundHalfEven, roundTo]

/-- C2: closing the hedged position entered with `futures_qty = -5`
appends a `ClosedPosition` whose `futures_qty` field is 0 (the field is
read after the close zeroed it), not the entry value -5; the `spot_qty`
field does recover the entry value 5. -/
theorem C2_snapshot_futures_qty_is_zero_not_entry :
    (close_position closeEnvA engineInit "ETHUSDT").2.success = true ∧
    (closeEnvA.reconciled "ETHUSDT").map Position.futures_qty = some (-5) ∧
    ((close_position closeEnvA engineInit "ETHUSDT").1.closed_positions.map
        ClosedPosition.futures_qty) = [0] ∧
    ((close_position closeEnvA engineInit "ETHUSDT").1.closed_positions.map
        ClosedPosition.spot_qty) = [5] ∧
    ((0 : ℚ) ≠ -5) := by
  norm_num [close_position, closeEnvA, posHedged, engineInit, hedgeRules,
    default_rules, calculate_funding_income, intTrunc, SPOT_FEE_RATE,
    FUTURES_FEE_RATE]

/-- C3 counterexample: with the default rules (both minimum order
amounts 5) and leverage 1, `get_min_investment_amount` returns 6, yet
the smallest total notional clearing both legs' minimum-order-amount
constraints is 10, whose 1.2-scaled 2-decimal rounding is 12 ≠ 6. -/
theorem C3_counterexample_not_smallest_clearing_notional :
    get_min_investment_amount false "XYZUSDT" hedgeRules 1 = 6 ∧
    IsLeast {T : ℚ | spec_clears_min_order_amounts 5 5 1 T} 10 ∧
    roundTo (10 * (12/10)) 2 = 12 ∧ (6 : ℚ) ≠ 12 := by
  refine ⟨by norm_num [get_min_investment_amount, hedgeRules, default_rules,
    roundTo, roundHalfEven], ⟨?_, ?_⟩,
    by norm_num [roundTo, roundHalfEven], by norm_num⟩
  · exact ⟨by norm_num, by norm_num⟩
  · intro b hb
    obtain ⟨h1, _⟩ := hb
    linarith

/-- C3 amended: outside demo mode, `get_min_investment_amount` returns
`max(spot min_order_amt, linear min_order_amt / leverage) * 1.2`
rounded to 2 decimals — a formula not in general equal to the smallest
total notional for which both legs clear their minimums. -/
theorem C3_min_investment_formula (rules : SymbolRules) (symbol : String)
    (L : ℤ) (_hL : 1 ≤ L) :
    get_min_investment_amount false symbol rules L =
      roundTo (max rules.spot.min_order_amt
        (rules.linear.min_order_amt / (L : ℚ)) * (12/10)) 2 := by
  rfl

/-- C3 amended witness at the default rules and leverage 1. -/
theorem C3_min_investment_formula_witness :
    (1 : ℤ) ≤ 1 ∧
    get_min_investment_amount false "XUSDT" hedgeRules 1 =
      roundTo (max hedgeRules.spot.min_order_amt
        (hedgeRules.linear.min_order_amt / ((1 : ℤ) : ℚ)) * (12/10)) 2 :=
  ⟨by decide, C3_min_investment_formula hedgeRules "XUSDT" 1 (by decide)⟩

/-- C4 counterexample: fetch AUSDT at t=100, fetch BUSDT at t=3600
(which resets the single shared `cache_time`), then request AUSDT at
t=7100 without forcing: the rules served were fetched 7000 s earlier
(`last_updated = 100`), exceeding the 3600 s TTL for that symbol. -/
theorem C4_counterexample_stale_symbol_served :
    (get_trading_rules rulesFetchB 7100 cacheS2 "AUSDT" false).1.last_updated = 100 ∧
    ((7100 : ℚ) - 100 > 3600) := by
  have hBA : ("BUSDT" : String) ≠ "AUSDT" := by decide
  have hAB : ("AUSDT" : String) ≠ "BUSDT" := by decide
  have hct2 : cacheS2.cache_time = 3600 := by
    norm_num [cacheS2, cacheS1, get_trading_rules, is_cache_valid, rulesCacheInit, hBA]
  have hA2 : cacheS2.rules_cache "AUSDT" =
      some { symbol := "AUSDT", spot := rulesFetchA.spot,
             linear := rulesFetchA.linear, last_updated := 100 } := by
    norm_num [cacheS2, cacheS1, get_trading_rules, is_cache_valid, rulesCacheInit,
      hBA, hAB]
  refine ⟨?_, by norm_num⟩
  norm_num [get_trading_rules, is_cache_valid, hct2, hA2]

/-- C4 amended: the cache gate uses one global `cache_time` shared by
all symbols: a request is served from cache exactly when not forced,
`now - cache_time < 3600`, and the symbol has an entry (of any age);
otherwise the rules are refetched with `last_updated = now` and the
shared `cache_time` is reset to `now`. -/
theorem C4_cache_gate_is_global :
    ∀ (fetched : SymbolRules) (now : ℚ) (st : RulesCacheState)
      (symbol : String) (force : Bool),
      if force = false ∧ now - st.cache_time < 3600 ∧
          (st.rules_cache symbol).isSome = true then
        (get_trading_rules fetched now st symbol force).1 =
            (st.rules_cache symbol).getD emptyRuleSet ∧
        (get_trading_rules fetched now st symbol force).2 = st
      else
        (get_trading_rules fetched now st symbol force).1.last_updated = now ∧
        (get_trading_rules fetched now st symbol force).2.cache_time = now := by
  intro fetched now st symbol force
  by_cases hf : force = false
  · by_cases hv : now - st.cache_time < 3600
    · cases hc : st.rules_cache symbol with
      | none => simp [get_trading_rules, is_cache_valid, hf, hv, hc]
      | some r => simp [get_trading_rules, is_cache_valid, hf, hv, hc]
    · cases hc : st.rules_cache symbol with
      | none => simp [get_trading_rules, is_cache_valid, hf, hv, hc]
      | some r => simp [get_trading_rules, is_cache_valid, hf, hv, hc]
  · cases hc : st.rules_cache symbol with
    | none => simp [get_trading_rules, is_cache_valid, hf, hc]
    | some r => simp [get_trading_rules, is_cache_valid, hf, hc]

/-- C5: closing a position whose spot quantity does not exceed the
futures short, at prices equal to the entry prices and with zero
elapsed funding periods, realizes a total P&L of exactly minus the
fees: 0.1% of the combined entry+exit spot notional plus 0.055% of the
combined entry+exit futures notional. -/
theorem C5_round_trip_pure_fee_loss (env : CloseEnv) (st : EngineState)
    (symbol : String) (pos : Position)
    (hpos : env.reconciled symbol = some pos)
    (hsp : env.spot_price = some pos.spot_avg_price)
    (hfp : env.futures_price = some pos.futures_avg_price)
    (hps : pos.spot_avg_price ≠ 0)
    (hpf : pos.futures_avg_price ≠ 0)
    (hq : pos.spot_qty ≤ |pos.futures_qty|)
    (hso : env.spot_order_code = 0)
    (hfo : env.futures_order_code = 0)
    (hzero : intTrunc ((env.now - pos.entry_time) / 3600 / 8) = 0) :
    ((close_position env st symbol).1.closed_positions.getLast?).map
        ClosedPosition.total_pnl =
      some (-((pos.spot_avg_price * pos.spot_qty + pos.spot_avg_price * pos.spot_qty)
                * SPOT_FEE_RATE
              + (pos.futures_avg_price * |pos.futures_qty|
                  + pos.futures_avg_price * |pos.futures_qty|)
                * FUTURES_FEE_RATE)) := by
  have hmin : min pos.spot_qty |pos.futures_qty| = pos.spot_qty := min_eq_left hq
  have hfund : calculate_funding_income env.funding_rate env.now pos = 0 := by
    cases hr : env.funding_rate with
    | none => rfl
    | some fr =>
      by_cases hfr : fr = 0
      · simp [calculate_funding_income, hfr]
      · simp [calculate_funding_income, hfr, hzero]
  simp only [close_position, hpos, hsp, hfp, Option.getD_some]
  rw [if_neg (by push_neg; exact ⟨hps, hpf⟩)]
  rw [if_neg (by simp [hso])]
  rw [if_neg (by simp [hfo])]
  rw [hmin, hfund]
  split_ifs <;> simp [List.getLast?_concat] <;> ring

/-- C5 witness: the hedged 5-unit position closed immediately at its
entry prices loses exactly the fees, 1.55 USDT. -/
theorem C5_round_trip_witness :
    closeEnvA.reconciled "ETHUSDT" = some posHedged ∧
    closeEnvA.spot_price = some posHedged.spot_avg_price ∧
    closeEnvA.futures_price = some posHedged.futures_avg_price ∧
    posHedged.spot_avg_price ≠ 0 ∧
    posHedged.futures_avg_price ≠ 0 ∧
    posHedged.spot_qty ≤ |posHedged.futures_qty| ∧
    closeEnvA.spot_order_code = 0 ∧
    closeEnvA.futures_order_code = 0 ∧
    intTrunc ((closeEnvA.now - posHedged.entry_time) / 3600 / 8) = 0 ∧
    ((close_position closeEnvA engineInit "ETHUSDT").1.closed_positions.getLast?).map
        ClosedPosition.total_pnl = some (-(31/20)) := by
  refine ⟨rfl, by norm_num [closeEnvA, posHedged], by norm_num [closeEnvA, posHedged],
    by norm_num [posHedged], by norm_num [posHedged], by norm_num [posHedged],
    rfl, rfl, by norm_num [closeEnvA, posHedged, intTrunc], ?_⟩
  have h := C5_round_trip_pure_fee_loss closeEnvA engineInit "ETHUSDT" posHedged
    rfl (by norm_num [closeEnvA, posHedged]) (by norm_num [closeEnvA, posHedged])
    (by norm_num [posHedged]) (by norm_num [posHedged]) (by norm_num [posHedged])
    rfl rfl (by norm_num [closeEnvA, posHedged, intTrunc])
  exact h.trans (by norm_num [posHedged, SPOT_FEE_RATE, FUTURES_FEE_RATE])

/-- C6: whenever `close_position` succeeds, the symbol is removed from
the live position map — the futures quantity is zeroed unconditionally,
so both removal branches fire regardless of any spot residual. -/
theorem C6_success_removes_position (env : CloseEnv) (st : EngineState)
    (symbol : String)
    (h : (close_position env st symbol).2.success = true) :
    (close_position env st symbol).1.positions symbol = none := by
  cases hc : env.reconciled symbol with
  | none => simp [close_position, hc] at h
  | some pos =>
    simp only [close_position, hc] at h ⊢
    split_ifs at h ⊢ <;> simp_all

/-- C6 witness: a position with futures leg fully covered and a spot
residual of 0.0005 (below the 0.001 threshold) is removed entirely. -/
theorem C6_success_removes_position_witness :
    (close_position closeEnvResidual engineInit "SOLUSDT").2.success = true ∧
    (close_position closeEnvResidual engineInit "SOLUSDT").1.positions "SOLUSDT" = none := by
  have hs : (close_position closeEnvResidual engineInit "SOLUSDT").2.success = true := by
    norm_num [close_position, closeEnvResidual, closeEnvA, posResidual, posHedged,
      engineInit, calculate_funding_income, intTrunc, SPOT_FEE_RATE, FUTURES_FEE_RATE]
  exact ⟨hs, C6_success_removes_position closeEnvResidual engineInit "SOLUSDT" hs⟩

/-- C7: the risk score equals
`min(|spread%|/2, 1) * 0.7 + max(0, -funding_rate*100) * 0.3` clamped
to 1, and always lies in [0, 1]. -/
theorem C7_risk_score_formula_and_bounds (pd fr : ℚ) :
    calculate_risk_score pd fr =
      min (min (|pd| / 2) 1 * (7/10) + max 0 (-fr * 100) * (3/10)) 1 ∧
    0 ≤ calculate_risk_score pd fr ∧ calculate_risk_score pd fr ≤ 1 := by
  refine ⟨rfl, ?_, min_le_right _ 1⟩
  have hpr : (0 : ℚ) ≤ min (|pd| / 2) 1 := le_min (by positivity) (by norm_num)
  have hfr2 : (0 : ℚ) ≤ max 0 (-fr * 100) := le_max_left 0 _
  have hsum : (0 : ℚ) ≤ min (|pd| / 2) 1 * (7/10) + max 0 (-fr * 100) * (3/10) :=
    add_nonneg (mul_nonneg hpr (by norm_num)) (mul_nonneg hfr2 (by norm_num))
  exact le_min hsum (by norm_num)

/-- C8: `calculate_capital_allocation T L` returns `spot_amount = T/2`
exactly, and `spot_amount + futures_margin * L = T` for `L ≥ 1`. -/
theorem C8_allocation_identities (T : ℚ) (L : ℤ) (hL : 1 ≤ L) :
    (calculate_capital_allocation T L).1 = T / 2 ∧
    (calculate_capital_allocation T L).1 +
      (calculate_capital_allocation T L).2 * (L : ℚ) = T := by
  have hL0 : (L : ℚ) ≠ 0 := by
    exact_mod_cast (by omega : L ≠ 0)
  refine ⟨rfl, ?_⟩
  unfold calculate_capital_allocation
  field_simp
  ring

/-- C8 witness at T = 1000, L = 2. -/
theorem C8_allocation_identities_witness :
    (1 : ℤ) ≤ 2 ∧
    ((calculate_capital_allocation 1000 2).1 = 1000 / 2 ∧
     (calculate_capital_allocation 1000 2).1 +
       (calculate_capital_allocation 1000 2).2 * ((2 : ℤ) : ℚ) = 1000) :=
  ⟨by norm_num, C8_allocation_identities 1000 2 (by norm_num)⟩

set_option maxHeartbeats 1600000 in
/-- C9: whenever `one_click_arbitrage` returns a failed result — for
any reason — the engine ledger (live positions and history) is exactly
as it was before the call; a position is stored only on the
full-success path. -/
theorem C9_entry_failure_leaves_ledger_unchanged (env : EntryEnv)
    (st : EngineState) (symbol : String) (total_amount : ℚ) (leverage : ℤ)
    (h : (one_click_arbitrage env st symbol total_amount leverage).2.success = false) :
    (one_click_arbitrage env st symbol total_amount leverage).1 = st := by
  revert h
  simp only [one_click_arbitrage]
  split_ifs <;> intro h <;> first | rfl | simp_all

/-- C9 witness: an entry rejected for leverage 0 leaves the fresh
ledger untouched. -/
theorem C9_entry_failure_witness :
    (one_click_arbitrage entryEnvA engineInit "BTCUSDT" 1000 0).2.success = false ∧
    (one_click_arbitrage entryEnvA engineInit "BTCUSDT" 1000 0).1 = engineInit := by
  have hs : (one_click_arbitrage entryEnvA engineInit "BTCUSDT" 1000 0).2.success = false := by
    norm_num [one_click_arbitrage]
  exact ⟨hs,
    C9_entry_failure_leaves_ledger_unchanged entryEnvA engineInit "BTCUSDT" 1000 0 hs⟩

/-- C10: whenever `close_position` returns a failed result, the
closed-position history is unchanged and the live map is exactly the
reconciled state — the close itself decrements nothing and appends
nothing. -/
theorem C10_close_failure_no_append_no_decrement (env : CloseEnv)
    (st : EngineState) (symbol : String)
    (h : (close_position env st symbol).2.success = false) :
    (close_position env st symbol).1.closed_positions = st.closed_positions ∧
    (close_position env st symbol).1.positions = env.reconciled := by
  cases hc : env.reconciled symbol with
  | none => simp [close_position, hc]
  | some pos =>
    simp only [close_position, hc] at h ⊢
    split_ifs at h ⊢ <;> exact ⟨rfl, rfl⟩

/-- C10 witness: a close whose spot sell is rejected changes neither
the history nor the reconciled live map. -/
theorem C10_close_failure_witness :
    (close_position closeEnvSpotFail engineInit "ETHUSDT").2.success = false ∧
    ((close_position closeEnvSpotFail engineInit "ETHUSDT").1.closed_positions =
        engineInit.closed_positions ∧
     (close_position closeEnvSpotFail engineInit "ETHUSDT").1.positions =
        closeEnvSpotFail.reconciled) := by
  have hs : (close_position closeEnvSpotFail engineInit "ETHUSDT").2.success = false := by
    norm_num [close_position, closeEnvSpotFail, closeEnvA, posHedged]
  exact ⟨hs,
    C10_close_failure_no_append_no_decrement closeEnvSpotFail engineInit "ETHUSDT" hs⟩

end BybitArb
